import Mathlib

/-!
Verification of the AutoDev python backend (src/backend-python/main.py),
a minimal FastAPI service: one CORS middleware with a fully permissive
configuration and one route, GET /health, returning a fixed JSON payload.

The application-level code (the CORS configuration literals, the health
handler's payload, the banner lines, the bind host and port, the
`__main__` guard) is embedded directly from main.py.  The framework
pieces that main.py merely invokes (Starlette/FastAPI routing and CORS
middleware, uvicorn's server startup) are not part of this repository;
where a claim depends on them they are modelled from the spec, and each
such definition says so in its doc comment.
-/

namespace AutoDev

/-- An HTTP request as seen by the service: method, path, headers,
query parameters and body.  Header names are taken lowercased. -/
structure Request where
  method : String
  path : String
  headers : List (String × String)
  query : List (String × String)
  body : String
  deriving Repr, DecidableEq

/-- An HTTP response: status code, headers, and a JSON-object body
modelled as an ordered list of string key/value pairs (every body this
service produces is a flat string-to-string object; the empty list
stands for a non-object body such as a preflight acknowledgement). -/
structure Response where
  status : Nat
  headers : List (String × String)
  body : List (String × String)
  deriving Repr, DecidableEq

/-- Look up a request header by (lowercase) name. -/
def getHeader (req : Request) (name : String) : Option String :=
  (req.headers.find? (fun p => p.fst == name)).map Prod.snd

/-- The fixed payload returned by the health handler
(main.py line 16: `return {"status": "ok", "service": "python-backend"}`). -/
def healthBody : List (String × String) :=
  [("status", "ok"), ("service", "python-backend")]

/-- The health route handler (main.py lines 14-16).  It takes no input
and returns the fixed payload; FastAPI serves it with status 200. -/
def health : Nat × List (String × String) :=
  (200, healthBody)

/-- The health handler with the server state made explicit.  The
handler's Python body touches no state, so the embedding returns the
state unchanged and an answer that does not depend on it. -/
def healthStateful (σ : Type) (s : σ) : (Nat × List (String × String)) × σ :=
  (health, s)

/-- The CORS middleware configuration record, with the field names of
the `add_middleware` keyword arguments in main.py lines 6-12. -/
structure CorsConfig where
  allow_origins : List String
  allow_credentials : Bool
  allow_methods : List String
  allow_headers : List String
  deriving Repr, DecidableEq

/-- The literal configuration passed to `add_middleware` in
main.py lines 6-12. -/
def corsConfig : CorsConfig :=
  { allow_origins := ["*"]
    allow_credentials := true
    allow_methods := ["*"]
    allow_headers := ["*"] }

/-- An origin is allowed when the configuration lists the wildcard or
the origin itself. -/
def originAllowed (c : CorsConfig) (o : String) : Bool :=
  c.allow_origins.contains "*" || c.allow_origins.contains o

/-- A method is allowed when the configuration lists the wildcard or
the method itself. -/
def methodAllowed (c : CorsConfig) (m : String) : Bool :=
  c.allow_methods.contains "*" || c.allow_methods.contains m

/-- A request header is allowed when the configuration lists the
wildcard or the header itself. -/
def headerAllowed (c : CorsConfig) (h : String) : Bool :=
  c.allow_headers.contains "*" || c.allow_headers.contains h

/-- Modelled from the spec: the CORS response headers the middleware
attaches (the middleware implementation lives in the Starlette
framework, not in this repository).  Per the spec's section 6, every
response carries `Access-Control-Allow-Origin` — the wildcard, or the
echoed request origin per credentialed-CORS semantics — together with
the credentials, methods and headers grants. -/
def corsHeaders (c : CorsConfig) (origin : Option String) : List (String × String) :=
  [("access-control-allow-origin",
      match origin with
      | some o => if c.allow_credentials then o else "*"
      | none => "*"),
   ("access-control-allow-credentials", if c.allow_credentials then "true" else "false"),
   ("access-control-allow-methods", String.intercalate ", " c.allow_methods),
   ("access-control-allow-headers", String.intercalate ", " c.allow_headers)]

/-- A request is a CORS preflight: an OPTIONS request carrying an
Origin header and an Access-Control-Request-Method header. -/
def isPreflight (req : Request) : Bool :=
  req.method == "OPTIONS"
    && (getHeader req "origin").isSome
    && (getHeader req "access-control-request-method").isSome

/-- Modelled from the spec: the framework's routing of a request to the
single registered route (FastAPI's router is not in this repository).
`GET /health` runs the health handler; a preflight `OPTIONS /health` is
answered permissively; any other method on `/health` gets the
framework's method-not-allowed answer (405); any other path gets the
framework's default not-found answer (404). -/
def route (req : Request) : Response :=
  if req.path = "/health" then
    if req.method = "GET" then
      { status := health.fst, headers := [], body := health.snd }
    else if isPreflight req then
      { status := 200, headers := [], body := [] }
    else
      { status := 405, headers := [("allow", "GET")],
        body := [("detail", "Method Not Allowed")] }
  else
    { status := 404, headers := [], body := [("detail", "Not Found")] }

/-- The whole application: the CORS middleware (installed before the
router, main.py lines 6-12) wrapped around the routing, so every
response carries the CORS headers. -/
def appHandle (req : Request) : Response :=
  let r := route req
  { r with headers := corsHeaders corsConfig (getHeader req "origin") ++ r.headers }

/-- A header value permits a requesting origin when it is the wildcard
or exactly that origin. -/
def permitsOrigin (value : String) (origin : Option String) : Prop :=
  value = "*" ∨ origin = some value

/-- What the `__main__` block starts: the banner lines printed and the
host and port the server is bound to. -/
structure StartupAction where
  printedLines : List String
  host : String
  port : Nat
  deriving Repr, DecidableEq

/-- The `__main__` block (main.py lines 18-22): prints two banner lines
and starts the server on 0.0.0.0:8000.  It is written as a function of
the command-line arguments, the environment and the contents of a
configuration file to express that none of the three is consulted: the
result is the same literal action for every value of them. -/
def mainEntry (_args : List String) (_env : List (String × String))
    (_configFile : Option String) : StartupAction :=
  { printedLines :=
      ["🚀 Starting Python Backend...",
       "✅ Server running on http://localhost:8000"]
    host := "0.0.0.0"
    port := 8000 }

/-- The possible outcomes of trying to bind the listening port. -/
inductive BindResult where
  | ok
  | portInUse
  | noPermission
  deriving Repr, DecidableEq

/-- The outcome of server startup: either the server is accepting
connections, or the process exited fatally after some number of retries
having served some number of requests. -/
inductive ServerOutcome where
  | accepting
  | fatalExit (retries : Nat) (requestsServed : Nat)
  deriving Repr, DecidableEq

/-- Modelled from the spec: the startup behavior of `uvicorn.run`
(main.py line 22; the server implementation is in the uvicorn package,
not in this repository).  On a successful bind it begins accepting
connections; on port-in-use or permission failure the process fails to
start — fatal, no retry, no request served. -/
def runServer (b : BindResult) : ServerOutcome :=
  match b with
  | .ok => .accepting
  | .portInUse => .fatalExit 0 0
  | .noPermission => .fatalExit 0 0

/-- The application object as configured by the module's top level:
the middleware stack (in installation order) and the route table of
(method, path) registrations. -/
structure App where
  middleware : List CorsConfig
  routes : List (String × String)
  deriving Repr, DecidableEq

/-- The application built by main.py lines 4-14: one CORS middleware
with the literal configuration, and the single route `GET /health`. -/
def theApp : App :=
  { middleware := [corsConfig], routes := [("GET", "/health")] }

/-- The observable effects of executing the module: the application
constructed, the lines printed to standard output, and the network
bind performed (host and port), if any. -/
structure ModuleEffects where
  app : App
  printed : List String
  bound : Option (String × Nat)
  deriving Repr, DecidableEq

/-- Executing main.py: the top-level statements (application
construction, middleware attachment, route registration) always run;
the prints and `uvicorn.run` only run under the `__main__` guard
(main.py lines 18-22). -/
def moduleRun (isMain : Bool) : ModuleEffects :=
  { app := theApp
    printed := if isMain then (mainEntry [] [] none).printedLines else []
    bound := if isMain then
        some ((mainEntry [] [] none).host, (mainEntry [] [] none).port)
      else none }

/-- A concrete plain GET /health request. -/
def getHealthReq : Request :=
  { method := "GET", path := "/health", headers := [], query := [], body := "" }

/-- A concrete GET /health request carrying an Origin header, a query
parameter and a body. -/
def getHealthNoisyReq : Request :=
  { method := "GET", path := "/health",
    headers := [("origin", "https://a.example")],
    query := [("q", "1")], body := "x" }

/-- A concrete GET request to a path other than /health. -/
def getNopeReq : Request :=
  { method := "GET", path := "/nope", headers := [], query := [], body := "" }

/-- A concrete POST /health request. -/
def postHealthReq : Request :=
  { method := "POST", path := "/health", headers := [], query := [], body := "" }

/-! ## Theorems for the claims -/

/-- C1: the operation handling GET /health returns HTTP status 200 with
a JSON body that is exactly the two-key mapping
{"status": "ok", "service": "python-backend"} and nothing else. -/
theorem health_returns_exact_payload (req : Request)
    (hm : req.method = "GET") (hp : req.path = "/health") :
    (appHandle req).status = 200 ∧
    (appHandle req).body = [("status", "ok"), ("service", "python-backend")] := by
  simp [appHandle, route, hp, hm, health, healthBody]

/-- Witness for C1: a concrete GET /health request. -/
theorem health_returns_exact_payload_witness :
    (appHandle getHealthReq).status = 200 ∧
    (appHandle getHealthReq).body =
      [("status", "ok"), ("service", "python-backend")] :=
  health_returns_exact_payload getHealthReq rfl rfl

/-- C2: the health handler is deterministic and stateless: run against
any two server states, both calls give the identical answer — status
200 with the fixed body — and each call leaves the state it was given
untouched. -/
theorem health_deterministic_stateless (σ : Type) (s₁ s₂ : σ) :
    (healthStateful σ s₁).fst = (healthStateful σ s₂).fst ∧
    (healthStateful σ s₁).fst = (200, healthBody) ∧
    (healthStateful σ s₁).snd = s₁ ∧
    (healthStateful σ s₂).snd = s₂ :=
  ⟨rfl, rfl, rfl, rfl⟩

/-- C3: every response — to any path, any method, preflight OPTIONS
included, with or without an Origin header — carries an
Access-Control-Allow-Origin header whose value permits the requesting
origin. -/
theorem every_response_has_allow_origin (req : Request) :
    ∃ v, ("access-control-allow-origin", v) ∈ (appHandle req).headers ∧
      permitsOrigin v (getHeader req "origin") := by
  cases h : getHeader req "origin" with
  | none =>
      exact ⟨"*", by simp [appHandle, corsHeaders, h], Or.inl rfl⟩
  | some o =>
      exact ⟨o, by simp [appHandle, corsHeaders, corsConfig, h], Or.inr rfl⟩

/-- C4: the CORS policy installed before routing simultaneously allows
every origin, allows credentialed requests, allows every HTTP method
and allows every request header. -/
theorem cors_policy_fully_permissive :
    theApp.middleware = [corsConfig] ∧
    corsConfig.allow_credentials = true ∧
    (∀ o, originAllowed corsConfig o = true) ∧
    (∀ m, methodAllowed corsConfig m = true) ∧
    (∀ h, headerAllowed corsConfig h = true) := by
  refine ⟨rfl, rfl, ?_, ?_, ?_⟩ <;>
    intro x <;> simp [originAllowed, methodAllowed, headerAllowed, corsConfig]

/-- C5: a request to any path other than /health gets status 404 — in
particular a non-2xx status — and a body that is not the health
payload. -/
theorem unknown_path_not_found (req : Request) (hp : req.path ≠ "/health") :
    (appHandle req).status = 404 ∧
    ¬(200 ≤ (appHandle req).status ∧ (appHandle req).status ≤ 299) ∧
    (appHandle req).body ≠ healthBody := by
  refine ⟨by simp [appHandle, route, hp], ?_, ?_⟩
  · simp [appHandle, route, hp]
  · simp [appHandle, route, hp, healthBody]

/-- Witness for C5: a concrete GET /nope request. -/
theorem unknown_path_not_found_witness :
    (appHandle getNopeReq).status = 404 ∧
    ¬(200 ≤ (appHandle getNopeReq).status ∧
      (appHandle getNopeReq).status ≤ 299) ∧
    (appHandle getNopeReq).body ≠ healthBody :=
  unknown_path_not_found getNopeReq (by decide)

/-- C6: a non-GET request to /health is answered with 200 (a preflight
the middleware acknowledges) or with 404/405 (the framework's default
routing answer, here 405). -/
theorem non_get_health_status (req : Request)
    (hp : req.path = "/health") (hm : req.method ≠ "GET") :
    (appHandle req).status = 200 ∨ (appHandle req).status = 404 ∨
    (appHandle req).status = 405 := by
  by_cases hpre : isPreflight req = true
  · exact Or.inl (by simp [appHandle, route, hp, hm, hpre])
  · exact Or.inr (Or.inr (by simp [appHandle, route, hp, hm, hpre]))

/-- Witness for C6: a concrete POST /health request. -/
theorem non_get_health_status_witness :
    (appHandle postHealthReq).status = 200 ∨
    (appHandle postHealthReq).status = 404 ∨
    (appHandle postHealthReq).status = 405 :=
  non_get_health_status postHealthReq rfl (by decide)

/-- C7: the health route's answer is independent of all request
content: two GET /health requests differing in headers, query
parameters or body get the same routed response, so the same status
and the same body. -/
theorem health_ignores_request_content (r₁ r₂ : Request)
    (h₁m : r₁.method = "GET") (h₁p : r₁.path = "/health")
    (h₂m : r₂.method = "GET") (h₂p : r₂.path = "/health") :
    route r₁ = route r₂ ∧
    (appHandle r₁).status = (appHandle r₂).status ∧
    (appHandle r₁).body = (appHandle r₂).body := by
  refine ⟨?_, ?_, ?_⟩ <;>
    simp [appHandle, route, h₁m, h₁p, h₂m, h₂p]

/-- Witness for C7: two concrete GET /health requests with different
headers, query parameters and bodies. -/
theorem health_ignores_request_content_witness :
    route getHealthNoisyReq = route getHealthReq ∧
    (appHandle getHealthNoisyReq).status = (appHandle getHealthReq).status ∧
    (appHandle getHealthNoisyReq).body = (appHandle getHealthReq).body :=
  health_ignores_request_content getHealthNoisyReq getHealthReq rfl rfl rfl rfl

/-- C8: run directly, the module prints exactly two banner lines and
starts the server on 0.0.0.0:8000, and the action is the same whatever
the command-line arguments, environment and configuration file are —
none of them is consulted. -/
theorem main_entry_fixed (a₁ a₂ : List String)
    (e₁ e₂ : List (String × String)) (c₁ c₂ : Option String) :
    mainEntry a₁ e₁ c₁ = mainEntry a₂ e₂ c₂ ∧
    (mainEntry a₁ e₁ c₁).printedLines =
      ["🚀 Starting Python Backend...",
       "✅ Server running on http://localhost:8000"] ∧
    (mainEntry a₁ e₁ c₁).printedLines.length = 2 ∧
    (mainEntry a₁ e₁ c₁).host = "0.0.0.0" ∧
    (mainEntry a₁ e₁ c₁).port = 8000 :=
  ⟨rfl, rfl, rfl, rfl, rfl⟩

/-- C9: if binding the port fails — port in use or no permission — the
process fails fatally: no retry is performed and no request is served. -/
theorem bind_failure_is_fatal (b : BindResult) (h : b ≠ .ok) :
    runServer b = .fatalExit 0 0 := by
  cases b with
  | ok => exact absurd rfl h
  | portInUse => rfl
  | noPermission => rfl

/-- Witness for C9: the port-in-use failure. -/
theorem bind_failure_is_fatal_witness :
    runServer .portInUse = .fatalExit 0 0 :=
  bind_failure_is_fatal .portInUse (by decide)

/-- C10: importing the module without running it as the main program
constructs the application with the CORS middleware attached and the
/health route registered, prints nothing, and binds no port. -/
theorem import_has_no_effects :
    moduleRun false = { app := theApp, printed := [], bound := none } ∧
    theApp.middleware = [corsConfig] ∧
    theApp.routes = [("GET", "/health")] :=
  ⟨rfl, rfl, rfl⟩

end AutoDev
